import Mathlib

/-!
Verification of the live_dsp loopback program (src/main.rs) against its
natural-language specification.

The program moves audio samples between a capture callback and a render
callback through two single-producer/single-consumer ring buffers
(ringbuf::HeapRb of f32), one per logical channel (left, right).  The live
f32 code path performs no arithmetic on the samples — they are only moved,
compared against nothing, and replaced by the constant 0.0 on underrun — so
samples are modelled exactly by rationals (Sample := Rat).

The ringbuf crate is an external dependency (not part of this repository);
its HeapRb is modelled by its documented contract: HeapRb::new panics when
the requested capacity is zero (the 0.4 API's Observer::capacity is a
NonZeroUsize), and a constructed ring is a bounded FIFO queue where
try_push fails exactly when the queue holds capacity elements (the rejected
element is returned, the queue unchanged) and try_pop fails exactly when
the queue is empty, returning the oldest element otherwise.

Rust panics (panic! and out-of-bounds indexing) are modelled as an error
outcome of the embedded function; anyhow::bail! (an error value returned to
the caller) is modelled as a distinct error constructor, since the two are
observably different to the caller of run_loopback.  Diagnostic messages
written with eprintln! inside the callbacks are modelled as a list of log
strings produced by the callback (stdout tracing via println! is elided).
-/

namespace LiveDsp

/-- Samples carried by the rings.  The live f32 path moves them unchanged. -/
abbrev Sample := ℚ

/-- Model of one ringbuf::HeapRb of f32 (the program builds two, L and R,
each with capacity buffer_size * 2).  The buffer list is the queue contents,
oldest first; cap is the fixed capacity chosen at construction. -/
structure ChannelRing where
  cap : Nat
  buf : List Sample
deriving DecidableEq, Repr

/-- Model of ringbuf Producer::try_push: succeeds (appending the sample) iff
the ring currently holds fewer than cap elements, otherwise fails leaving
the ring unchanged.  Returns the success flag and the resulting ring. -/
def ChannelRing.tryPush (r : ChannelRing) (x : Sample) : Bool × ChannelRing :=
  if r.buf.length < r.cap then (true, ⟨r.cap, r.buf ++ [x]⟩) else (false, r)

/-- Model of ringbuf Consumer::try_pop: returns the oldest element and
removes it, or none when the ring is empty. -/
def ChannelRing.tryPop (r : ChannelRing) : Option Sample × ChannelRing :=
  match r.buf with
  | [] => (none, r)
  | x :: rest => (some x, ⟨r.cap, rest⟩)

/-- An operation applied to a ring from either side. -/
inductive RingOp where
  | push (x : Sample)
  | pop
deriving DecidableEq, Repr

/-- Run a sequence of operations on a ring, counting successful pushes and
successful pops.  Returns (final ring, successful pushes, successful pops). -/
def runOps (r : ChannelRing) : List RingOp → ChannelRing × Nat × Nat
  | [] => (r, 0, 0)
  | RingOp.push x :: rest =>
    let s := r.tryPush x
    let t := runOps s.2 rest
    (t.1, (if s.1 then 1 else 0) + t.2.1, t.2.2)
  | RingOp.pop :: rest =>
    let s := r.tryPop
    let t := runOps s.2 rest
    (t.1, t.2.1, (if s.1.isSome then 1 else 0) + t.2.2)

/-- Push a whole list of samples in order with try_push, dropping rejected
samples, as the capture callback does frame by frame. -/
def pushAll (r : ChannelRing) : List Sample → ChannelRing
  | [] => r
  | x :: rest => pushAll (r.tryPush x).2 rest

/-- Pop n times in a row, collecting each result (some sample or none). -/
def popN (r : ChannelRing) : Nat → List (Option Sample) × ChannelRing
  | 0 => ([], r)
  | n + 1 =>
    let p := r.tryPop
    let t := popN p.2 n
    (p.1 :: t.1, t.2)

/-- Outcome of one callback invocation.  A Rust panic (panic! or
out-of-bounds indexing) unwinds out of the callback and is modelled as the
panicked constructor; ok carries the callback's observable effect. -/
inductive CbOut (α : Type) where
  | ok (val : α)
  | panicked (msg : String)
deriving DecidableEq, Repr

/-- Model of the source pattern
if let Err(_) = producer.try_push(x) \x7b eprintln!("name producer full"); \x7d:
the resulting ring plus the stderr diagnostics emitted. -/
def pushOrLog (name : String) (r : ChannelRing) (x : Sample) :
    ChannelRing × List String :=
  let p := r.tryPush x
  if p.1 then (p.2, []) else (p.2, [name ++ " producer full"])

/-- Model of the source pattern
consumer.try_pop().unwrap_or_else(|| \x7b eprintln!("name consumer empty"); 0.0 \x7d):
the value obtained (silence 0 on underrun), the resulting ring, and the
stderr diagnostics emitted. -/
def popOr0 (name : String) (r : ChannelRing) :
    Sample × ChannelRing × List String :=
  match r.tryPop with
  | (some x, s) => (x, s, [])
  | (none, s) => (0, s, [name ++ " consumer empty"])

/-- Stereo branch of the f32 input callback: data.chunks(2), pushing
frame[0] to L and frame[1] to R.  When the data length is odd the final
chunk has a single element and frame[1] is an out-of-bounds index, a Rust
panic (the push of frame[0] has already happened, but the panic unwinds, so
no observable effect survives). -/
def inputStereo : List Sample → ChannelRing → ChannelRing →
    CbOut (ChannelRing × ChannelRing × List String)
  | [], L, R => .ok (L, R, [])
  | [_], _, _ => .panicked "index out of bounds: the len is 1 but the index is 1"
  | x :: y :: rest, L, R =>
    let pL := pushOrLog "L" L x
    let pR := pushOrLog "R" R y
    match inputStereo rest pL.1 pR.1 with
    | .ok (Lf, Rf, logs) => .ok (Lf, Rf, pL.2 ++ pR.2 ++ logs)
    | .panicked m => .panicked m

/-- Mono branch of the f32 input callback: each sample is pushed to both
the L and the R ring. -/
def inputMono : List Sample → ChannelRing → ChannelRing →
    ChannelRing × ChannelRing × List String
  | [], L, R => (L, R, [])
  | x :: rest, L, R =>
    let pL := pushOrLog "L" L x
    let pR := pushOrLog "R" R x
    let t := inputMono rest pL.1 pR.1
    (t.1, t.2.1, pL.2 ++ pR.2 ++ t.2.2)

/-- Model of the f32 input stream callback of run_loopback: early return on
empty data, then dispatch on the captured input_channels; any channel count
other than 2 or 1 panics inside the callback. -/
def inputCallbackF32 (inputChannels : Nat) (data : List Sample)
    (L R : ChannelRing) : CbOut (ChannelRing × ChannelRing × List String) :=
  if data = [] then .ok (L, R, [])
  else if inputChannels = 2 then inputStereo data L R
  else if inputChannels = 1 then .ok (inputMono data L R)
  else .panicked ("What the fuck are these input channels: " ++ toString inputChannels)

/-- Model of the i16 input stream callback of run_loopback: its body is an
unconditional panic!("Have i16 input data"); the i16-to-f32 conversion next
to it is commented out and never runs. -/
def inputCallbackI16 (_data : List Int) (_L _R : ChannelRing) :
    CbOut (ChannelRing × ChannelRing × List String) :=
  .panicked "Have i16 input data"

/-- Stereo branch of the f32 output callback: data.chunks_mut(2), writing
the L pop (or silence) to frame[0] and the R pop (or silence) to frame[1].
An odd data length makes the final chunk a single slot and frame[1] an
out-of-bounds index, a Rust panic. -/
def outputChunks2 : List Sample → ChannelRing → ChannelRing →
    CbOut (List Sample × ChannelRing × ChannelRing × List String)
  | [], L, R => .ok ([], L, R, [])
  | [_], _, _ => .panicked "index out of bounds: the len is 1 but the index is 1"
  | _ :: _ :: rest, L, R =>
    let pL := popOr0 "L" L
    let pR := popOr0 "R" R
    match outputChunks2 rest pL.2.1 pR.2.1 with
    | .ok (out, Lf, Rf, logs) => .ok (pL.1 :: pR.1 :: out, Lf, Rf, pL.2.2 ++ pR.2.2 ++ logs)
    | .panicked m => .panicked m

/-- Mono branch of the f32 output callback: each output slot receives the L
pop (or silence); the R ring is also popped, with its value discarded, so
its read cursor advances in step. -/
def outputMono : List Sample → ChannelRing → ChannelRing →
    List Sample × ChannelRing × ChannelRing × List String
  | [], L, R => ([], L, R, [])
  | _ :: rest, L, R =>
    let pL := popOr0 "L" L
    let pR := popOr0 "R" R
    let t := outputMono rest pL.2.1 pR.2.1
    (pL.1 :: t.1, t.2.1, t.2.2.1, pL.2.2 ++ pR.2.2 ++ t.2.2.2)

/-- Model of the f32 output stream callback of run_loopback: dispatch on
the captured output_channels (no early return on empty data exists in this
callback); any count other than 2 or 1 panics inside the callback, with a
message that interpolates the captured input_channels variable. -/
def outputCallbackF32 (outputChannels inputChannels : Nat) (data : List Sample)
    (L R : ChannelRing) : CbOut (List Sample × ChannelRing × ChannelRing × List String) :=
  if outputChannels = 2 then outputChunks2 data L R
  else if outputChannels = 1 then .ok (outputMono data L R)
  else .panicked ("What the fuck are these input channels: " ++ toString inputChannels)

/-- Model of the i16 output stream callback of run_loopback: its body is an
unconditional panic!("filling i16 output data"); the f32-to-i16 conversion
next to it is commented out and never runs. -/
def outputCallbackI16 (_data : List Int) (_L _R : ChannelRing) :
    CbOut (List Sample × ChannelRing × ChannelRing × List String) :=
  .panicked "filling i16 output data"

/-- Diagnostics the f32 output callback writes to stderr when it finds both
rings empty while filling n stereo frames: alternating L and R underrun
messages, one pair per frame. -/
def underrunLogs : Nat → List String
  | 0 => []
  | n + 1 => "L consumer empty" :: "R consumer empty" :: underrunLogs n

/-- Sample formats the program distinguishes: cpal::SampleFormat::F32,
I16, and every other variant (matched as a catch-all and rejected). -/
inductive SampleFormat where
  | f32
  | i16
  | other (name : String)
deriving DecidableEq, Repr

/-- The negotiated format of one device stream, as read from
default_input_config / default_output_config. -/
structure StreamFormat where
  sampleRate : Nat
  channels : Nat
  format : SampleFormat
deriving DecidableEq, Repr

/-- What a successful run_loopback setup leaves installed: the two streams
whose callbacks capture these channel counts and this sample format. -/
structure BuiltBridge where
  inputChannels : Nat
  outputChannels : Nat
  format : SampleFormat
deriving DecidableEq, Repr

/-- Outcome of the setup phase of run_loopback.  panicked models Rust
panic! (unwinds; never returned to the caller as an error value);
configError models anyhow::bail! (an Err value propagated to the caller of
run_loopback). -/
inductive SetupResult where
  | ok (bridge : BuiltBridge)
  | panicked (msg : String)
  | configError (msg : String)
deriving DecidableEq, Repr

/-- Model of the setup phase of run_loopback, in source order: first the
sample-format equality check (panic! on mismatch), then the sample-rate
equality check (panic! on mismatch), then the input-stream build (bail! on
a format other than F32 or I16), then the output-stream build (likewise).
Channel counts are never examined here.  Message formatting of the
interpolated values is elided. -/
def setupLoopback (inp out : StreamFormat) : SetupResult :=
  if inp.format ≠ out.format then
    .panicked "Input and output device sample format are different"
  else if inp.sampleRate ≠ out.sampleRate then
    .panicked "Input and output device sample rate are different"
  else
    match inp.format with
    | .other n => .configError ("Unsupported input format: " ++ n)
    | _ =>
      match out.format with
      | .other n => .configError ("Unsupported output format: " ++ n)
      | _ => .ok ⟨inp.channels, out.channels, inp.format⟩

/-- Discriminator: did setup return an error value to the caller (the
anyhow::bail! path), as opposed to succeeding or panicking. -/
def isConfigError : SetupResult → Bool
  | .configError _ => true
  | _ => false

/-- Recognizer for the Unicode White_Space property, the set
char::is_whitespace tests and str::trim strips: U+0009 to U+000D, space,
next line, no-break space, ogham space mark, the U+2000 to U+200A range,
the line and paragraph separators, narrow no-break space, medium
mathematical space and ideographic space. -/
def isWhitespaceChar (c : Char) : Bool :=
  let n := c.toNat
  (Nat.ble 0x9 n && Nat.ble n 0xD) || n == 0x20 ||
  n == 0x85 || n == 0xA0 || n == 0x1680 ||
  (Nat.ble 0x2000 n && Nat.ble n 0x200A) ||
  n == 0x2028 || n == 0x2029 || n == 0x202F || n == 0x205F || n == 0x3000

/-- Model of str::trim: strip leading and trailing Unicode whitespace. -/
def trimWs (s : List Char) : List Char :=
  ((s.dropWhile isWhitespaceChar).reverse.dropWhile isWhitespaceChar).reverse

/-- Model of str::parse::<u32>(): an optional leading plus sign, then at
least one ASCII digit and nothing else, with the value below 2^32;
otherwise the parse fails. -/
def parseU32 (s : List Char) : Option Nat :=
  let t := match s with
    | '+' :: rest => rest
    | _ => s
  if t = [] then none
  else if t.all Char.isDigit then
    let v := t.foldl (fun a c => a * 10 + (c.toNat - 48)) 0
    if v < 2 ^ 32 then some v else none
  else none

/-- Model of the buffer-size prompt of run_loopback:
selection.trim().parse::<u32>().unwrap_or(1024). -/
def bufferSizeOf (line : String) : Nat :=
  (parseU32 (trimWs line.data)).getD 1024

/-- Capacity of each of the two rings run_loopback builds:
HeapRb::new(buffer_size as usize * 2). -/
def ringCapacity (line : String) : Nat :=
  bufferSizeOf line * 2

/-- Model of HeapRb::<f32>::new(capacity), called twice by run_loopback to
build the L and R rings.  In the ringbuf 0.4 API a ring's capacity is a
NonZeroUsize and HeapRb::new panics when asked for capacity zero; otherwise
the ring starts empty with the given capacity.  The crate's exact panic
message is not modelled, only that construction panics. -/
def heapRbNew (cap : Nat) : CbOut ChannelRing :=
  if cap = 0 then .panicked "ring buffer capacity must be non-zero"
  else .ok ⟨cap, []⟩

theorem tryPush_cap (r : ChannelRing) (x : Sample) : ((r.tryPush x).2).cap = r.cap := by
  unfold ChannelRing.tryPush
  split <;> rfl

theorem tryPop_cap (r : ChannelRing) : (r.tryPop.2).cap = r.cap := by
  unfold ChannelRing.tryPop
  split <;> rfl

theorem tryPush_len (r : ChannelRing) (x : Sample) (h : r.buf.length ≤ r.cap) :
    ((r.tryPush x).2).buf.length = (if (r.tryPush x).1 then 1 else 0) + r.buf.length ∧
    ((r.tryPush x).2).buf.length ≤ r.cap := by
  by_cases hlt : r.buf.length < r.cap
  · simp [ChannelRing.tryPush, hlt]
    omega
  · simp [ChannelRing.tryPush, hlt]
    exact h

theorem tryPop_len (r : ChannelRing) (h : r.buf.length ≤ r.cap) :
    r.buf.length = (if r.tryPop.1.isSome then 1 else 0) + (r.tryPop.2).buf.length ∧
    (r.tryPop.2).buf.length ≤ r.cap := by
  obtain ⟨cap, buf⟩ := r
  cases buf with
  | nil => simp [ChannelRing.tryPop]
  | cons x rest =>
    simp [ChannelRing.tryPop] at h ⊢
    omega

/-- Core accounting invariant: over any op sequence, successful pushes plus
the initial occupancy equal successful pops plus the final occupancy, the
final occupancy stays at most cap, and cap never changes. -/
theorem runOps_invariant (ops : List RingOp) : ∀ (r : ChannelRing), r.buf.length ≤ r.cap →
    (runOps r ops).2.1 + r.buf.length =
      (runOps r ops).2.2 + ((runOps r ops).1).buf.length ∧
    ((runOps r ops).1).buf.length ≤ r.cap ∧ ((runOps r ops).1).cap = r.cap := by
  induction ops with
  | nil => intro r h; simpa [runOps] using h
  | cons op rest ih =>
    intro r h
    cases op with
    | push x =>
      have hp := tryPush_len r x h
      have hcap := tryPush_cap r x
      have hrec := ih (r.tryPush x).2 (by rw [hcap]; exact hp.2)
      simp only [runOps]
      refine ⟨?_, ?_, ?_⟩
      · omega
      · rw [← hcap]; exact hrec.2.1
      · rw [← hcap]; exact hrec.2.2
    | pop =>
      have hp := tryPop_len r h
      have hcap := tryPop_cap r
      have hrec := ih r.tryPop.2 (by rw [hcap]; exact hp.2)
      simp only [runOps]
      refine ⟨?_, ?_, ?_⟩
      · omega
      · rw [← hcap]; exact hrec.2.1
      · rw [← hcap]; exact hrec.2.2

theorem pushAll_buf (xs : List Sample) : ∀ (r : ChannelRing),
    r.buf.length + xs.length ≤ r.cap → pushAll r xs = ⟨r.cap, r.buf ++ xs⟩ := by
  induction xs with
  | nil => intro r h; simp [pushAll]
  | cons x rest ih =>
    intro r h
    have hlt : r.buf.length < r.cap := by
      simp only [List.length_cons] at h
      omega
    have hstep : (r.tryPush x).2 = ⟨r.cap, r.buf ++ [x]⟩ := by
      simp [ChannelRing.tryPush, hlt]
    rw [pushAll, hstep, ih ⟨r.cap, r.buf ++ [x]⟩ (by simp; simp at h; omega)]
    simp

theorem popN_buf (l : List Sample) : ∀ (cap : Nat),
    popN ⟨cap, l⟩ l.length = (l.map some, ⟨cap, []⟩) := by
  induction l with
  | nil => intro cap; simp [popN]
  | cons x rest ih =>
    intro cap
    simp [popN, ChannelRing.tryPop, ih]

theorem outputChunks2_empty (n : Nat) : ∀ (data : List Sample) (cL cR : Nat),
    data.length = 2 * n →
    outputChunks2 data ⟨cL, []⟩ ⟨cR, []⟩ =
      .ok (List.replicate (2 * n) 0, ⟨cL, []⟩, ⟨cR, []⟩, underrunLogs n) := by
  induction n with
  | zero =>
    intro data cL cR h
    have : data = [] := List.eq_nil_of_length_eq_zero (by omega)
    subst this
    simp [outputChunks2, underrunLogs]
  | succ n ih =>
    intro data cL cR h
    match data with
    | [] => simp only [List.length_nil] at h; omega
    | [a] => simp only [List.length_cons, List.length_nil] at h; omega
    | a :: b :: rest =>
      have hr : rest.length = 2 * n := by simp at h; omega
      have h2 : 2 * (n + 1) = (2 * n) + 1 + 1 := by ring
      rw [h2]
      simp only [outputChunks2, popOr0, ChannelRing.tryPop, ih rest cL cR hr,
        List.replicate_succ, underrunLogs]
      simp

/-- C1: for every sequence of try_push and try_pop operations on a
ChannelRing constructed with capacity C (as run_loopback constructs the L
and R rings empty with capacity buffer_size * 2), the number of successful
pushes minus the number of successful pops is at least 0 (pops never exceed
pushes) and never exceeds C. -/
theorem ring_push_pop_invariant (C : Nat) (ops : List RingOp) :
    (runOps ⟨C, []⟩ ops).2.2 ≤ (runOps ⟨C, []⟩ ops).2.1 ∧
    (runOps ⟨C, []⟩ ops).2.1 - (runOps ⟨C, []⟩ ops).2.2 ≤ C := by
  have h := runOps_invariant ops ⟨C, []⟩ (by simp)
  simp only [List.length_nil] at h
  omega

/-- C4: the ChannelRing is FIFO.  Pushing xs (with length at most the
capacity) into an empty ring stores exactly xs; popping that many times
returns xs in order and one further pop returns none; and when the pushes
have filled the ring to capacity, one more push fails leaving the stored
contents unchanged, so later pops still return the earlier values
(scenarios A and B of the spec). -/
theorem ring_fifo (C : Nat) (xs : List Sample) (y : Sample) (h : xs.length ≤ C) :
    (pushAll ⟨C, []⟩ xs).buf = xs ∧
    (popN (pushAll ⟨C, []⟩ xs) xs.length).1 = xs.map some ∧
    ((popN (pushAll ⟨C, []⟩ xs) xs.length).2).tryPop.1 = none ∧
    (xs.length = C → (pushAll ⟨C, []⟩ xs).tryPush y = (false, pushAll ⟨C, []⟩ xs)) := by
  have hp : pushAll ⟨C, []⟩ xs = ⟨C, xs⟩ := by
    have := pushAll_buf xs ⟨C, []⟩ (by simpa using h)
    simpa using this
  rw [hp]
  refine ⟨rfl, ?_, ?_, ?_⟩
  · rw [popN_buf xs C]
  · rw [popN_buf xs C]
    rfl
  · intro hfull
    simp [ChannelRing.tryPush, hfull]

/-- C4 witness: scenario B with capacity 2 and pushes 1/2, 3/5, then an
attempted 7/10 rejected with the stored values intact. -/
theorem ring_fifo_witness :
    ([(1 : ℚ)/2, 3/5].length ≤ 2) ∧
    ((pushAll ⟨2, []⟩ [(1 : ℚ)/2, 3/5]).buf = [(1 : ℚ)/2, 3/5] ∧
     (popN (pushAll ⟨2, []⟩ [(1 : ℚ)/2, 3/5]) ([(1 : ℚ)/2, 3/5]).length).1 =
       ([(1 : ℚ)/2, 3/5]).map some ∧
     ((popN (pushAll ⟨2, []⟩ [(1 : ℚ)/2, 3/5]) ([(1 : ℚ)/2, 3/5]).length).2).tryPop.1 = none ∧
     (([(1 : ℚ)/2, 3/5]).length = 2 →
       (pushAll ⟨2, []⟩ [(1 : ℚ)/2, 3/5]).tryPush (7/10) =
         (false, pushAll ⟨2, []⟩ [(1 : ℚ)/2, 3/5]))) :=
  ⟨by decide, ring_fifo 2 [(1 : ℚ)/2, 3/5] (7/10) (by decide)⟩

/-- C2 counterexample: filling one stereo frame from empty rings.  The pops
fail and silence is substituted, but the failure IS surfaced synchronously
to the real-time path: the render callback itself prints the stderr
diagnostics "L consumer empty" and "R consumer empty" (the source's
eprintln! calls, blocking console output inside the real-time callback), so
the callback's emitted diagnostic list is not empty — contradicting the
claim that the failure is never surfaced synchronously. -/
theorem underrun_diag_inside_callback_cex :
    outputCallbackF32 2 2 [(5 : ℚ), 6] ⟨4, []⟩ ⟨4, []⟩ =
      .ok ([0, 0], ⟨4, []⟩, ⟨4, []⟩, ["L consumer empty", "R consumer empty"]) ∧
    ¬ outputCallbackF32 2 2 [(5 : ℚ), 6] ⟨4, []⟩ ⟨4, []⟩ =
      .ok ([0, 0], ⟨4, []⟩, ⟨4, []⟩, []) := by
  exact ⟨by decide, by decide⟩

/-- C2 amended: try_pop on an empty ChannelRing fails, returning none and
leaving the ring unchanged; the unwrap_or_else wrapper substitutes silence
0; and the f32 render callback, invoked on entirely empty rings, completes
without panicking or propagating an error, writing silence into every
output slot of the requested block — but it surfaces each failed pop
synchronously, printing an underrun diagnostic to stderr from inside the
real-time callback itself (the underrunLogs component), rather than keeping
the failure out of the real-time path. -/
theorem underrun_substitutes_silence (n cL cR ic : Nat) (data : List Sample)
    (h : data.length = 2 * n) :
    ChannelRing.tryPop ⟨cL, []⟩ = (none, ⟨cL, []⟩) ∧
    popOr0 "L" ⟨cL, []⟩ = (0, ⟨cL, []⟩, ["L consumer empty"]) ∧
    outputCallbackF32 2 ic data ⟨cL, []⟩ ⟨cR, []⟩ =
      .ok (List.replicate (2 * n) 0, ⟨cL, []⟩, ⟨cR, []⟩, underrunLogs n) := by
  refine ⟨rfl, rfl, ?_⟩
  have hcb : outputCallbackF32 2 ic data ⟨cL, []⟩ ⟨cR, []⟩ =
      outputChunks2 data ⟨cL, []⟩ ⟨cR, []⟩ := by
    simp [outputCallbackF32]
  rw [hcb, outputChunks2_empty n data cL cR h]

/-- C2 witness: a block of four stale slots on empty rings of capacity 4
becomes four slots of silence. -/
theorem underrun_substitutes_silence_witness :
    ([(5 : ℚ), 6, 7, 8].length = 2 * 2) ∧
    (ChannelRing.tryPop ⟨4, []⟩ = (none, ⟨4, []⟩) ∧
     popOr0 "L" ⟨4, []⟩ = (0, ⟨4, []⟩, ["L consumer empty"]) ∧
     outputCallbackF32 2 2 [(5 : ℚ), 6, 7, 8] ⟨4, []⟩ ⟨4, []⟩ =
       .ok (List.replicate (2 * 2) 0, ⟨4, []⟩, ⟨4, []⟩, underrunLogs 2)) :=
  ⟨by decide, underrun_substitutes_silence 2 4 4 2 [(5 : ℚ), 6, 7, 8] (by decide)⟩

/-- C3 counterexample: pushing one mono sample 5 with both rings full
(capacity 1, holding 1 and 2).  The push fails and the rings are unchanged,
but the failure IS reported synchronously from inside the real-time
callback: the callback itself emits the stderr diagnostics "L producer
full" and "R producer full" (the source's eprintln! calls), so its emitted
diagnostic list is not empty — contradicting the claim that the failure is
only reported via a diagnostic external to the real-time path. -/
theorem overrun_diag_inside_callback_cex :
    inputCallbackF32 1 [(5 : ℚ)] ⟨1, [1]⟩ ⟨1, [2]⟩ =
      .ok (⟨1, [1]⟩, ⟨1, [2]⟩, ["L producer full", "R producer full"]) ∧
    ¬ inputCallbackF32 1 [(5 : ℚ)] ⟨1, [1]⟩ ⟨1, [2]⟩ =
      .ok (⟨1, [1]⟩, ⟨1, [2]⟩, []) := by
  exact ⟨by decide, by decide⟩

/-- C3 amended: try_push on a full ChannelRing fails, the pushed sample is
dropped and the stored contents are unchanged; the failure is reported by a
blocking stderr print (eprintln!) executed inside the real-time callback
itself, not via a diagnostic external to the real-time path. -/
theorem overrun_drops_sample (L R : ChannelRing) (x : Sample)
    (hL : L.buf.length = L.cap) (hR : R.buf.length = R.cap) :
    L.tryPush x = (false, L) ∧
    pushOrLog "L" L x = (L, ["L producer full"]) ∧
    inputCallbackF32 1 [x] L R = .ok (L, R, ["L producer full", "R producer full"]) := by
  have hpL : L.tryPush x = (false, L) := by
    simp [ChannelRing.tryPush, hL]
  have hpR : R.tryPush x = (false, R) := by
    simp [ChannelRing.tryPush, hR]
  have hlogL : pushOrLog "L" L x = (L, ["L producer full"]) := by
    simp [pushOrLog, hpL]
  have hlogR : pushOrLog "R" R x = (R, ["R producer full"]) := by
    simp [pushOrLog, hpR]
  refine ⟨hpL, hlogL, ?_⟩
  simp [inputCallbackF32, inputMono, hlogL, hlogR]

/-- C3 witness: full rings of capacity 1 reject the sample 5 and the
callback reports both rejections itself. -/
theorem overrun_drops_sample_witness :
    ((ChannelRing.mk 1 [3]).buf.length = 1) ∧
    ((ChannelRing.mk 1 [4]).buf.length = 1) ∧
    (ChannelRing.tryPush ⟨1, [3]⟩ 5 = (false, ⟨1, [3]⟩) ∧
     pushOrLog "L" ⟨1, [3]⟩ 5 = (⟨1, [3]⟩, ["L producer full"]) ∧
     inputCallbackF32 1 [(5 : ℚ)] ⟨1, [3]⟩ ⟨1, [4]⟩ =
       .ok (⟨1, [3]⟩, ⟨1, [4]⟩, ["L producer full", "R producer full"])) :=
  ⟨by decide, by decide, overrun_drops_sample ⟨1, [3]⟩ ⟨1, [4]⟩ 5 (by decide) (by decide)⟩

/-- C5 counterexample: scenario C's exact input — input format
(44100 Hz, 2 ch, F32) against output format (48000 Hz, 2 ch, F32).  Setup
aborts with a Rust panic! on the sample-rate check; it does NOT return a
configuration-error value to the caller (the bail! path run_loopback uses
for unsupported formats), so no ConfigurationError is propagated. -/
theorem format_mismatch_panics_cex :
    setupLoopback ⟨44100, 2, SampleFormat.f32⟩ ⟨48000, 2, SampleFormat.f32⟩ =
      .panicked "Input and output device sample rate are different" ∧
    isConfigError (setupLoopback ⟨44100, 2, SampleFormat.f32⟩ ⟨48000, 2, SampleFormat.f32⟩)
      = false := by
  exact ⟨by decide, by decide⟩

/-- C5 amended: if the input and output stream formats differ in sample
format or (with equal formats) in sample rate, run_loopback panics during
setup, before any stream is built or started; the failure is a panic that
unwinds, not a ConfigurationError value returned to the caller. -/
theorem format_mismatch_panics (inp out : StreamFormat) :
    (inp.format ≠ out.format →
      setupLoopback inp out =
        .panicked "Input and output device sample format are different" ∧
      isConfigError (setupLoopback inp out) = false) ∧
    (inp.format = out.format → inp.sampleRate ≠ out.sampleRate →
      setupLoopback inp out =
        .panicked "Input and output device sample rate are different" ∧
      isConfigError (setupLoopback inp out) = false) := by
  constructor
  · intro hf
    have hs : setupLoopback inp out =
        .panicked "Input and output device sample format are different" := by
      simp [setupLoopback, hf]
    exact ⟨hs, by rw [hs]; rfl⟩
  · intro hf hr
    have hs : setupLoopback inp out =
        .panicked "Input and output device sample rate are different" := by
      simp [setupLoopback, hf, hr]
    exact ⟨hs, by rw [hs]; rfl⟩

/-- C5 witness: scenario C's formats satisfy the rate-mismatch hypotheses
and setup panics on the rate check. -/
theorem format_mismatch_panics_witness :
    (SampleFormat.f32 = SampleFormat.f32) ∧ (44100 ≠ 48000) ∧
    (setupLoopback ⟨44100, 2, SampleFormat.f32⟩ ⟨48000, 2, SampleFormat.f32⟩ =
       .panicked "Input and output device sample rate are different" ∧
     isConfigError (setupLoopback ⟨44100, 2, SampleFormat.f32⟩ ⟨48000, 2, SampleFormat.f32⟩)
       = false) :=
  ⟨rfl, by decide,
    (format_mismatch_panics ⟨44100, 2, SampleFormat.f32⟩ ⟨48000, 2, SampleFormat.f32⟩).2
      rfl (by decide)⟩

/-- C6 counterexample: a 3-channel f32 input against a 2-channel f32 output
at the same rate.  Setup succeeds — no unsupported-configuration error is
reported at construction time, the streams and their callbacks are
installed — and the unsupported channel count instead raises a panic from
inside the input callback on its first invocation with data. -/
theorem channel_check_in_callback_cex :
    setupLoopback ⟨48000, 3, SampleFormat.f32⟩ ⟨48000, 2, SampleFormat.f32⟩ =
      .ok ⟨3, 2, SampleFormat.f32⟩ ∧
    inputCallbackF32 3 [(0 : ℚ)] ⟨2, []⟩ ⟨2, []⟩ =
      .panicked "What the fuck are these input channels: 3" := by
  exact ⟨by decide, by decide⟩

/-- C6 amended: channel counts are never validated during setup — with
matching rate and f32 formats, stream construction succeeds for every
channel-count combination; a channel count other than 1 or 2 instead
panics from inside the capture callback on its first invocation with a
nonempty block, and from inside the render callback on every invocation
(the render panic message interpolates the captured input channel count). -/
theorem unsupported_channels_panic_in_callback (inp out : StreamFormat)
    (ic oc : Nat) (data outData : List Sample) (L R L2 R2 : ChannelRing)
    (hf : inp.format = SampleFormat.f32) (hof : out.format = SampleFormat.f32)
    (hr : inp.sampleRate = out.sampleRate)
    (h1 : ic ≠ 1) (h2 : ic ≠ 2) (hd : data ≠ [])
    (g1 : oc ≠ 1) (g2 : oc ≠ 2) :
    setupLoopback inp out = .ok ⟨inp.channels, out.channels, SampleFormat.f32⟩ ∧
    inputCallbackF32 ic data L R =
      .panicked ("What the fuck are these input channels: " ++ toString ic) ∧
    outputCallbackF32 oc ic outData L2 R2 =
      .panicked ("What the fuck are these input channels: " ++ toString ic) := by
  refine ⟨?_, ?_, ?_⟩
  · simp [setupLoopback, hf, hof, hr]
  · simp [inputCallbackF32, hd, h1, h2]
  · simp [outputCallbackF32, g1, g2]

/-- C6 witness: 3 input channels and 5 output channels pass setup untouched
and panic inside the respective callbacks. -/
theorem unsupported_channels_panic_witness :
    (SampleFormat.f32 = SampleFormat.f32) ∧ ((3 : Nat) ≠ 1) ∧ ((3 : Nat) ≠ 2) ∧
    ([(0 : ℚ)] ≠ ([] : List Sample)) ∧ ((5 : Nat) ≠ 1) ∧ ((5 : Nat) ≠ 2) ∧
    (setupLoopback ⟨48000, 3, SampleFormat.f32⟩ ⟨48000, 5, SampleFormat.f32⟩ =
       .ok ⟨3, 5, SampleFormat.f32⟩ ∧
     inputCallbackF32 3 [(0 : ℚ)] ⟨2, []⟩ ⟨2, []⟩ =
       .panicked ("What the fuck are these input channels: " ++ toString 3) ∧
     outputCallbackF32 5 3 [(0 : ℚ)] ⟨2, []⟩ ⟨2, []⟩ =
       .panicked ("What the fuck are these input channels: " ++ toString 3)) :=
  ⟨rfl, by decide, by decide, by decide, by decide, by decide,
    unsupported_channels_panic_in_callback
      ⟨48000, 3, SampleFormat.f32⟩ ⟨48000, 5, SampleFormat.f32⟩ 3 5
      [(0 : ℚ)] [(0 : ℚ)] ⟨2, []⟩ ⟨2, []⟩ ⟨2, []⟩ ⟨2, []⟩
      rfl rfl rfl (by decide) (by decide) (by decide) (by decide) (by decide)⟩

theorem inputMono_append (data : List Sample) : ∀ (L R : ChannelRing),
    L.buf.length + data.length ≤ L.cap → R.buf.length + data.length ≤ R.cap →
    inputMono data L R = (⟨L.cap, L.buf ++ data⟩, ⟨R.cap, R.buf ++ data⟩, []) := by
  induction data with
  | nil => intro L R hL hR; simp [inputMono]
  | cons x rest ih =>
    intro L R hL hR
    simp only [List.length_cons] at hL hR
    have hlL : L.buf.length < L.cap := by omega
    have hlR : R.buf.length < R.cap := by omega
    have hpL : pushOrLog "L" L x = (⟨L.cap, L.buf ++ [x]⟩, []) := by
      simp [pushOrLog, ChannelRing.tryPush, hlL]
    have hpR : pushOrLog "R" R x = (⟨R.cap, R.buf ++ [x]⟩, []) := by
      simp [pushOrLog, ChannelRing.tryPush, hlR]
    have hbL : (ChannelRing.mk L.cap (L.buf ++ [x])).buf.length + rest.length ≤
        (ChannelRing.mk L.cap (L.buf ++ [x])).cap := by
      simp only [List.length_append, List.length_cons, List.length_nil]
      omega
    have hbR : (ChannelRing.mk R.cap (R.buf ++ [x])).buf.length + rest.length ≤
        (ChannelRing.mk R.cap (R.buf ++ [x])).cap := by
      simp only [List.length_append, List.length_cons, List.length_nil]
      omega
    simp only [inputMono, hpL, hpR, ih _ _ hbL hbR]
    simp

theorem outputMono_take (data : List Sample) : ∀ (L R : ChannelRing),
    data.length ≤ L.buf.length → data.length ≤ R.buf.length →
    outputMono data L R =
      (L.buf.take data.length, ⟨L.cap, L.buf.drop data.length⟩,
       ⟨R.cap, R.buf.drop data.length⟩, []) := by
  induction data with
  | nil => intro L R hL hR; simp [outputMono]
  | cons d rest ih =>
    intro L R hL hR
    obtain ⟨cL, bL⟩ := L
    obtain ⟨cR, bR⟩ := R
    match bL, bR with
    | [], _ => simp at hL
    | _ :: _, [] => simp at hR
    | l :: lt, r :: rt =>
      simp only [List.length_cons] at hL hR
      have hL2 : rest.length ≤ lt.length := by simpa using hL
      have hR2 : rest.length ≤ rt.length := by simpa using hR
      simp only [outputMono, popOr0, ChannelRing.tryPop,
        ih ⟨cL, lt⟩ ⟨cR, rt⟩ hL2 hR2]
      simp

/-- C7: with one input channel (mono capture) and both logical rings, the
capture callback broadcasts every captured sample to both the left and the
right ring: given room for the block, each ring's contents grow by exactly
the captured sample sequence, so both logical samples of every frame equal
the input sample. -/
theorem mono_broadcast (data : List Sample) (L R : ChannelRing)
    (hL : L.buf.length + data.length ≤ L.cap)
    (hR : R.buf.length + data.length ≤ R.cap) :
    inputCallbackF32 1 data L R =
      .ok (⟨L.cap, L.buf ++ data⟩, ⟨R.cap, R.buf ++ data⟩, []) := by
  by_cases hd : data = []
  · subst hd; simp [inputCallbackF32]
  · simp [inputCallbackF32, hd, inputMono_append data L R hL hR]

/-- C7 witness: a mono block [2, 3] lands identically in both rings behind
their existing contents. -/
theorem mono_broadcast_witness :
    ((ChannelRing.mk 4 [1]).buf.length + [(2 : ℚ), 3].length ≤ 4) ∧
    ((ChannelRing.mk 4 []).buf.length + [(2 : ℚ), 3].length ≤ 4) ∧
    inputCallbackF32 1 [(2 : ℚ), 3] ⟨4, [1]⟩ ⟨4, []⟩ =
      .ok (⟨4, [1] ++ [(2 : ℚ), 3]⟩, ⟨4, [] ++ [(2 : ℚ), 3]⟩, []) :=
  ⟨by decide, by decide,
    mono_broadcast [(2 : ℚ), 3] ⟨4, [1]⟩ ⟨4, []⟩ (by decide) (by decide)⟩

/-- C8: with one output channel and both logical rings populated, each
output slot receives the next left-ring sample in order, while the right
ring is popped in step — its read cursor advances by the same count — and
the popped right samples are discarded from the output. -/
theorem mono_output_first_channel (data : List Sample) (ic : Nat)
    (L R : ChannelRing)
    (hL : data.length ≤ L.buf.length) (hR : data.length ≤ R.buf.length) :
    outputCallbackF32 1 ic data L R =
      .ok (L.buf.take data.length, ⟨L.cap, L.buf.drop data.length⟩,
           ⟨R.cap, R.buf.drop data.length⟩, []) := by
  simp [outputCallbackF32, outputMono_take data L R hL hR]

/-- C8 witness: two mono slots are filled with the left ring's 1, 2 while
the right ring also loses its first two samples. -/
theorem mono_output_first_channel_witness :
    ([(9 : ℚ), 9].length ≤ (ChannelRing.mk 4 [1, 2, 3]).buf.length) ∧
    ([(9 : ℚ), 9].length ≤ (ChannelRing.mk 4 [4, 5, 6]).buf.length) ∧
    outputCallbackF32 1 1 [(9 : ℚ), 9] ⟨4, [1, 2, 3]⟩ ⟨4, [4, 5, 6]⟩ =
      .ok ([1, 2, 3].take [(9 : ℚ), 9].length, ⟨4, [1, 2, 3].drop [(9 : ℚ), 9].length⟩,
           ⟨4, [4, 5, 6].drop [(9 : ℚ), 9].length⟩, []) :=
  ⟨by decide, by decide,
    mono_output_first_channel [(9 : ℚ), 9] 1 ⟨4, [1, 2, 3]⟩ ⟨4, [4, 5, 6]⟩
      (by decide) (by decide)⟩

/-- C9 counterexample: delivering the i16 sample 16384 to the i16 input
callback does not convert it (no division by 32767 happens, nothing reaches
the rings): the callback's body is an unconditional panic, and likewise for
the i16 output callback — so the claimed Int16 round trip never executes. -/
theorem i16_conversion_never_runs_cex :
    inputCallbackI16 [16384] ⟨8, []⟩ ⟨8, []⟩ = .panicked "Have i16 input data" ∧
    outputCallbackI16 [16384] ⟨8, []⟩ ⟨8, []⟩ = .panicked "filling i16 output data" :=
  ⟨rfl, rfl⟩

/-- C9 amended: for Float32 both directions are the identity — a captured
sample crosses the rings and reaches the output slot unchanged; for Int16
no conversion is performed at all: both i16 callbacks panic unconditionally
on invocation, the divide-by-32767 round-trip code existing only in
comments. -/
theorem f32_identity_i16_dead (x d : Sample) (data : List Int)
    (L R L2 R2 : ChannelRing) :
    inputCallbackI16 data L R = .panicked "Have i16 input data" ∧
    outputCallbackI16 data L2 R2 = .panicked "filling i16 output data" ∧
    inputCallbackF32 1 [x] ⟨1, []⟩ ⟨1, []⟩ = .ok (⟨1, [x]⟩, ⟨1, [x]⟩, []) ∧
    outputCallbackF32 1 1 [d] ⟨1, [x]⟩ ⟨1, [x]⟩ = .ok ([x], ⟨1, []⟩, ⟨1, []⟩, []) := by
  refine ⟨rfl, rfl, ?_, ?_⟩
  · simp [inputCallbackF32, inputMono, pushOrLog, ChannelRing.tryPush]
  · simp [outputCallbackF32, outputMono, popOr0, ChannelRing.tryPop]

/-- C10 counterexample: the entered line "0" parses to 0, so the requested
ring capacity is 0 — but HeapRb::new panics on a zero capacity, so setup
aborts at ring construction: no capacity-0 ring is ever produced, and in
particular not the empty capacity-0 ring the claim describes, so no push
ever fails on one and no all-silence output exists. -/
theorem zero_capacity_panics_cex :
    parseU32 (trimWs (String.data "0")) = some 0 ∧
    ringCapacity "0" = 0 ∧
    heapRbNew (ringCapacity "0") = .panicked "ring buffer capacity must be non-zero" ∧
    ¬ heapRbNew (ringCapacity "0") = .ok ⟨0, []⟩ := by
  exact ⟨by decide, by decide, by decide, by decide⟩

/-- C10 amended: each of the two rings is constructed with capacity exactly
2 times the user-entered buffer size, and when the entered line does not
parse as a u32 the buffer size defaults to 1024 (capacity 2048); in both
cases, for a nonzero buffer size, HeapRb::new succeeds with an empty ring
of that capacity.  An entered 0 is accepted by the parse, but the resulting
HeapRb::new(0) call panics during setup, so no capacity-0 rings (and no
streams or silent output) ever exist. -/
theorem ring_capacity_and_defaults (line line2 : String) (m : Nat)
    (h1 : parseU32 (trimWs line.data) = none)
    (h2 : parseU32 (trimWs line2.data) = some m) (hm : m ≠ 0) :
    ringCapacity line2 = 2 * m ∧
    heapRbNew (ringCapacity line2) = .ok ⟨2 * m, []⟩ ∧
    ringCapacity line = 2048 ∧
    heapRbNew (ringCapacity line) = .ok ⟨2048, []⟩ ∧
    parseU32 (trimWs (String.data "0")) = some 0 ∧
    ringCapacity "0" = 0 ∧
    heapRbNew (ringCapacity "0") = .panicked "ring buffer capacity must be non-zero" := by
  have hc2 : ringCapacity line2 = 2 * m := by
    simp only [ringCapacity, bufferSizeOf, h2, Option.getD_some]
    omega
  have hc1 : ringCapacity line = 2048 := by
    simp [ringCapacity, bufferSizeOf, h1]
  refine ⟨hc2, ?_, hc1, ?_, by decide, by decide, by decide⟩
  · rw [hc2]
    simp [heapRbNew, hm]
  · rw [hc1]
    rfl

/-- C10 witness: the line "abc" defaults to capacity 2048 and the line
"512" with a trailing newline yields capacity 1024; both rings are built
empty at those capacities while the line "0" leads to a construction
panic. -/
theorem ring_capacity_and_defaults_witness :
    (parseU32 (trimWs (String.data "abc")) = none) ∧
    (parseU32 (trimWs (String.data "512\n")) = some 512) ∧
    ((512 : Nat) ≠ 0) ∧
    (ringCapacity "512\n" = 2 * 512 ∧
     heapRbNew (ringCapacity "512\n") = .ok ⟨2 * 512, []⟩ ∧
     ringCapacity "abc" = 2048 ∧
     heapRbNew (ringCapacity "abc") = .ok ⟨2048, []⟩ ∧
     parseU32 (trimWs (String.data "0")) = some 0 ∧
     ringCapacity "0" = 0 ∧
     heapRbNew (ringCapacity "0") = .panicked "ring buffer capacity must be non-zero") :=
  ⟨by decide, by decide, by decide,
    ring_capacity_and_defaults "abc" "512\n" 512 (by decide) (by decide) (by decide)⟩

end LiveDsp
